import Mathlib

/-!
Verification of the `team-logo-combiner` image pipeline.

Shallow embedding of the Python sources:
  * `team_logo_combiner.py` — byte sanitizer, resilient download loop,
    fallback-logo color derivation, transparent-border cropping, and the
    compositor's resize / canvas geometry;
  * `app.py` together with `src/core/error_handling.py` — the Flask error
    handlers and the exception-class hierarchy they dispatch on.

Byte strings are modelled as `List Nat` (one entry per byte).  Machine floats
appearing in the source (`int(width1 * ratio)` with `ratio = target/height`,
and `int(combined_width * 0.10)`) are modelled by exact rational arithmetic
followed by truncation, i.e. Nat floor division; at the concrete inputs used
in the theorems below the binary-float computation of the source is exact, so
the two agree there.
-/

/- ## Byte sanitizer (`sanitize_image_data`, team_logo_combiner.py lines 50-113) -/

/-- PNG signature `\x89PNG\r\n\x1a\n` checked by `image_data.startswith` in the
source. -/
def pngSig : List Nat := [0x89, 0x50, 0x4E, 0x47, 0x0D, 0x0A, 0x1A, 0x0A]

/-- JPEG start-of-image bytes `\xff\xd8\xff` checked by `image_data.startswith`
in the source. -/
def jpegSig : List Nat := [0xFF, 0xD8, 0xFF]

/-- Number of trailing zero bytes.  The source computes this with the
`last_non_null` scan loop (lines 98-102); `bytes.rstrip(b'\x00')` in the JPEG
branch removes exactly this many final bytes. -/
def trailingZeros (l : List Nat) : Nat :=
  (l.reverse.takeWhile (fun b => b == 0)).length

/-- Translation of `sanitize_image_data` (lines 50-113).  The source's
docstring allows returning `None` for hopeless data, hence the `Option`
codomain; every actual `return` statement returns a bytes value, and each
branch below mirrors one of them in order: empty input, no null bytes, PNG
signature, JPEG signature (strip trailing nulls when that shortens the data),
and the general case (strip trailing nulls when any exist, otherwise return
the data unchanged). -/
def sanitize_image_data (d : List Nat) : Option (List Nat) :=
  if d = [] then some d
  else if !(d.contains 0) then some d
  else if pngSig.isPrefixOf d then some d
  else if jpegSig.isPrefixOf d then
    let stripped := d.take (d.length - trailingZeros d)
    if stripped.length < d.length then some stripped else some d
  else
    let t := trailingZeros d
    if 0 < t then some (d.take (d.length - t)) else some d

/- ## Resilient fetcher (`download_with_retry`, team_logo_combiner.py lines 117-187) -/

/-- Outcome of one `requests.get` + `raise_for_status` attempt: a successful
response (abstracted to a numeric payload), an `HTTPError` carrying the
response's status code, a `Timeout`, or a `ConnectionError`. -/
inductive FetchOutcome where
  | success (resp : Nat)
  | httpError (status : Nat)
  | timeout
  | connError
deriving DecidableEq, Repr

/-- What a whole `download_with_retry` call does: return a response, raise
`ImageDownloadError` (the enhanced-logging path is active in this app, since
`from src.core import ...` succeeds), or fall through the loop to the trailing
`return None`. -/
inductive FetchResult where
  | ok (resp : Nat)
  | raisedImageDownloadError
  | noneReturned
deriving DecidableEq, Repr

/-- Loop body of `download_with_retry`, attempts indexed from `attempt`, with
explicit fuel (the loop runs `max_retries + 1` iterations).  Returns the
result, the number of attempts consumed, and the number of backoff sleeps
performed.  The 4xx guard mirrors the source line 152,
`if e.response and 400 <= e.response.status_code < 500`: `requests.Response`
defines truthiness as `status_code < 400` (`Response.ok`), so for an error
response produced by `raise_for_status` (status ≥ 400) the conjunct
`e.response` is always falsy — hence the extra `s < 400` conjunct. -/
def downloadGo (orc : Nat → FetchOutcome) (maxRetries : Nat) :
    Nat → Nat → FetchResult × Nat × Nat
  | _, 0 => (FetchResult.noneReturned, 0, 0)
  | attempt, fuel + 1 =>
    match orc attempt with
    | FetchOutcome.success r => (FetchResult.ok r, 1, 0)
    | FetchOutcome.httpError s =>
      if s < 400 ∧ 400 ≤ s ∧ s < 500 then (FetchResult.raisedImageDownloadError, 1, 0)
      else if attempt = maxRetries then (FetchResult.raisedImageDownloadError, 1, 0)
      else
        let rest := downloadGo orc maxRetries (attempt + 1) fuel
        (rest.1, rest.2.1 + 1, rest.2.2 + 1)
    | FetchOutcome.timeout =>
      if attempt = maxRetries then (FetchResult.raisedImageDownloadError, 1, 0)
      else
        let rest := downloadGo orc maxRetries (attempt + 1) fuel
        (rest.1, rest.2.1 + 1, rest.2.2 + 1)
    | FetchOutcome.connError =>
      if attempt = maxRetries then (FetchResult.raisedImageDownloadError, 1, 0)
      else
        let rest := downloadGo orc maxRetries (attempt + 1) fuel
        (rest.1, rest.2.1 + 1, rest.2.2 + 1)

/-- `download_with_retry(url, max_retries)`: the behavior of the URL is the
attempt-outcome function `orc`.  Result, attempts made, sleeps performed. -/
def download_with_retry (orc : Nat → FetchOutcome) (maxRetries : Nat) :
    FetchResult × Nat × Nat :=
  downloadGo orc maxRetries 0 (maxRetries + 1)

/-- Outcomes the fetcher treats as retryable per the spec taxonomy: timeouts,
connection failures, and HTTP errors outside the 400-499 range. -/
def retryableOutcome : FetchOutcome → Bool
  | FetchOutcome.success _ => false
  | FetchOutcome.httpError s => if 400 ≤ s ∧ s < 500 then false else true
  | FetchOutcome.timeout => true
  | FetchOutcome.connError => true

/- ## Fallback logo color (`create_fallback_logo`, team_logo_combiner.py lines 190-228) -/

/-- Channel clamp `max(80, min(200, v))` from lines 213-215. -/
def clampChannel (v : Nat) : Nat := max 80 (min 200 v)

/-- Color derivation of `create_fallback_logo` (lines 203-215): the first
three bytes of the MD5 digest of the identifier (`int(hash_hex[0:2], 16)` is
exactly digest byte 0, and so on), each clamped into `[80, 200]`.  `hashlib`
is an external library, so the digest is abstracted as a function from the
identifier to its digest bytes. -/
def create_fallback_logo_color (md5digest : String → List Nat)
    (team_id : String) : Nat × Nat × Nat :=
  let d := md5digest team_id
  (clampChannel (d.getD 0 0), clampChannel (d.getD 1 0), clampChannel (d.getD 2 0))

/- ## Images and border cropping (`crop_transparent_border`, lines 284-294) -/

/-- Pillow color modes relevant here (a representative subset: `RGBA` and `LA`
carry an alpha channel, `RGB` and `L` do not). -/
inductive ImageMode where
  | RGBA
  | RGB
  | LA
  | L
deriving DecidableEq, Repr

/-- Index of the alpha band within a pixel's channel list, when the mode has
one (`RGBA` pixels are `(r, g, b, a)`, `LA` pixels are `(l, a)`). -/
def ImageMode.alphaIndex : ImageMode → Option Nat
  | ImageMode.RGBA => some 3
  | ImageMode.LA => some 1
  | _ => none

/-- Whether the mode carries an alpha channel. -/
def ImageMode.hasAlpha (m : ImageMode) : Bool := m.alphaIndex.isSome

/-- A decoded in-memory image: dimensions, mode, and a pixel function giving
the channel values at each coordinate. -/
structure PILImage where
  width : Nat
  height : Nat
  mode : ImageMode
  px : Nat → Nat → List Nat

/-- Alpha value at a coordinate; fully opaque for modes without alpha. -/
def alphaAt (img : PILImage) (x y : Nat) : Nat :=
  match img.mode.alphaIndex with
  | some i => (img.px x y).getD i 0
  | none => 255

/-- `Image.getbbox()` as Pillow documents it for alpha-carrying images
(`alpha_only` defaults to true since Pillow 10): the bounding box
`(left, upper, right, lower)` — right/lower exclusive — of the pixels whose
alpha is non-zero, or `none` when every pixel is fully transparent. -/
def alphaBBox (img : PILImage) : Option (Nat × Nat × Nat × Nat) :=
  let cols := (List.range img.width).filter
    (fun x => (List.range img.height).any (fun y => alphaAt img x y != 0))
  let rows := (List.range img.height).filter
    (fun y => (List.range img.width).any (fun x => alphaAt img x y != 0))
  match cols.min?, cols.max?, rows.min?, rows.max? with
  | some l, some r, some u, some b => some (l, u, r + 1, b + 1)
  | _, _, _, _ => none

/-- `Image.crop(box)` restricted to in-bounds boxes: the result has the box's
dimensions and reads pixels at translated coordinates. -/
def cropBox (img : PILImage) (box : Nat × Nat × Nat × Nat) : PILImage :=
  { width := box.2.2.1 - box.1
    height := box.2.2.2 - box.2.1
    mode := img.mode
    px := fun x y => img.px (x + box.1) (y + box.2.1) }

/-- Translation of `crop_transparent_border` (lines 284-294): non-`RGBA`
images are returned unchanged (`if image.mode != 'RGBA'`); for `RGBA` images
the alpha bounding box is cropped to when it exists, and a fully transparent
image is returned unchanged. -/
def crop_transparent_border (img : PILImage) : PILImage :=
  if img.mode ≠ ImageMode.RGBA then img
  else
    match alphaBBox img with
    | some box => cropBox img box
    | none => img

/- ## Compositor geometry (`merge_images_from_urls`, lines 439-477) -/

/-- Width and height of a logo slot after cropping. -/
structure Dims where
  w : Nat
  h : Nat
deriving DecidableEq, Repr

/-- Resize step of the compositor (lines 445-464), parameterized by the
width computation `nwidth width target height`.  The source computes the new
width as `int(width1 * ratio)` with `ratio = target_height / float(height1)`:
a truncated IEEE-double product whose value this model deliberately does not
fix, because binary64 rounding can push it one below the exact floor — at
width 90, heights 10 vs 7 the double product is 62.999999999999992… and
`int` gives 62 while ⌊90·7/10⌋ = 63 — so theorems about this step are stated
for every `nwidth`, which covers the double semantics in particular.  The
branch structure is translated exactly: `target_height` is the minimum of the
two heights; the slot whose height exceeds it is resized to
`(nwidth width target height, target)`, but only when the computed width is
positive (`if new_width1 > 0 and target_height > 0`), otherwise the resize is
skipped with a warning; the `elif` makes the two resizes mutually
exclusive. -/
def resizeLogosWith (nwidth : Nat → Nat → Nat → Nat) (d1 d2 : Dims) : Dims × Dims :=
  let target := min d1.h d2.h
  if target < d1.h then
    let nw1 := nwidth d1.w target d1.h
    if 0 < nw1 ∧ 0 < target then (⟨nw1, target⟩, d2) else (d1, d2)
  else if target < d2.h then
    let nw2 := nwidth d2.w target d2.h
    if 0 < nw2 ∧ 0 < target then (d1, ⟨nw2, target⟩) else (d1, d2)
  else (d1, d2)

/-- The resize step instantiated with the exact floor `⌊width·target/height⌋`.
This agrees with the source's double computation at float-exact inputs — all
concrete evaluations below use such inputs — but not at every input (see
`resizeLogosWith`), so width-value-sensitive statements quantify over the
width computation instead, and the canvas-geometry theorem below is
parametric in whatever post-resize widths this step supplies. -/
def resizeLogos (d1 d2 : Dims) : Dims × Dims :=
  resizeLogosWith (fun w t h => w * t / h) d1 d2

/-- Modelled from the spec: the claim's stated resize width
`round(width × target_height/height)`, i.e. rounding to the nearest integer
(at the concrete inputs used below the value sits at or above a half, where
Python's banker's rounding and round-half-up agree). -/
def roundNearest (num den : Nat) : Nat := (2 * num + den) / (2 * den)

/-- Canvas geometry of `merge_images_from_urls` (lines 439-477): the height
guard (line 442), the resize step, the combined dimensions, the combined-size
guard (line 469), the 10% paddings (`int(x * 0.10)` = floor `x/10`), and the
square canvas allocated as `(canvas_size, canvas_size)` (line 477).  `none`
models the `return None` guard exits. -/
def merge_images_geometry (d1 d2 : Dims) : Option (Nat × Nat) :=
  if d1.h = 0 ∨ d2.h = 0 then none
  else
    let r := resizeLogos d1 d2
    let combinedWidth := r.1.w + r.2.w
    let combinedHeight := min d1.h d2.h
    if combinedWidth = 0 ∨ combinedHeight = 0 then none
    else
      let ph := combinedWidth / 10
      let pv := combinedHeight / 10
      let canvasSize := max 1 (max (combinedWidth + 2 * ph) (combinedHeight + 2 * pv))
      some (canvasSize, canvasSize)

/- ## Serving boundary (`app.py` lines 38-63, exception classes from
`src/core/error_handling.py` lines 16-43 and Python's `Exception`) -/

/-- Exception classes that can reach the Flask boundary. -/
inductive ExcClass where
  | exceptionBase
  | imageProcessingError
  | imageValidationError
  | imageDownloadError
  | imageCombineError
  | imageSaveError
  | configurationError
deriving DecidableEq, Repr

/-- Python method-resolution order of each class: every `Image*Error` of
`error_handling.py` derives from `ImageProcessingError`, which derives from
`Exception`. -/
def ExcClass.mro : ExcClass → List ExcClass
  | ExcClass.exceptionBase => [ExcClass.exceptionBase]
  | ExcClass.imageProcessingError => [ExcClass.imageProcessingError, ExcClass.exceptionBase]
  | c => [c, ExcClass.imageProcessingError, ExcClass.exceptionBase]

/-- Printable class name, used in the handlers' `"type"` field. -/
def ExcClass.pyName : ExcClass → String
  | ExcClass.exceptionBase => "Exception"
  | ExcClass.imageProcessingError => "ImageProcessingError"
  | ExcClass.imageValidationError => "ImageValidationError"
  | ExcClass.imageDownloadError => "ImageDownloadError"
  | ExcClass.imageCombineError => "ImageCombineError"
  | ExcClass.imageSaveError => "ImageSaveError"
  | ExcClass.configurationError => "ConfigurationError"

/-- An escalated Python exception: its class and message. -/
structure PyExc where
  cls : ExcClass
  msg : String

/-- The JSON error object produced by `jsonify({"error": ..., "type": ...})`
in each handler of `app.py`. -/
structure JsonErrorBody where
  errorMsg : String
  typeName : String
deriving DecidableEq, Repr

/-- Handler registered with `@app.errorhandler(ImageValidationError)`
(app.py lines 38-45): JSON body, status 400. -/
def handle_validation_errors (e : PyExc) : JsonErrorBody × Nat :=
  ({ errorMsg := e.msg, typeName := e.cls.pyName }, 400)

/-- Handler registered with `@app.errorhandler(ImageProcessingError)`
(app.py lines 47-54): JSON body, status 500. -/
def handle_processing_errors (e : PyExc) : JsonErrorBody × Nat :=
  ({ errorMsg := e.msg, typeName := e.cls.pyName }, 500)

/-- Handler registered with `@app.errorhandler(Exception)` (app.py lines
56-63): generic JSON body, status 500, message not leaked. -/
def handle_generic_error (e : PyExc) : JsonErrorBody × Nat :=
  ({ errorMsg := "Internal server error", typeName := e.cls.pyName }, 500)

/-- The three handlers `app.py` registers (the legacy `error_handler.py`
module, which maps upstream failures to 502/504, is never imported nor
registered by `app.py`). -/
def registeredHandlers : List (ExcClass × (PyExc → JsonErrorBody × Nat)) :=
  [(ExcClass.imageValidationError, handle_validation_errors),
   (ExcClass.imageProcessingError, handle_processing_errors),
   (ExcClass.exceptionBase, handle_generic_error)]

/-- Flask's handler lookup: walk the exception class's MRO and use the first
class with a registered handler. -/
def flaskDispatch (e : PyExc) : Option (JsonErrorBody × Nat) :=
  (e.cls.mro.findSome? fun c =>
    (registeredHandlers.find? fun p => p.1 == c).map Prod.snd).map (fun h => h e)

/-- The failure kinds of the spec's error taxonomy that escalate to the
serving boundary. -/
inductive FailureKind where
  | validationFailure
  | processingFailure
  | unexpectedError
  | upstreamHTTPFailure
  | upstreamNetworkFailure
  | upstreamTimeout
deriving DecidableEq, Repr

/-- Exception class that reaches the Flask boundary for each failure kind:
request validation raises `ImageValidationError` (app.py lines 95-117,
`validate_image_parameters`); a failed merge raises `ImageProcessingError`
(app.py line 136); unexpected exceptions outside the wrapping `try` reach the
generic handler as plain `Exception`s; and all upstream failures — client
errors, exhausted server errors, connection failures, and timeouts — are
raised by `download_with_retry` as `ImageDownloadError`
(team_logo_combiner.py lines 156, 163, 174), a subclass of
`ImageProcessingError`.  (Re-wrapping on the way up can replace it with
`ImageProcessingError` itself, which dispatches to the same handler.) -/
def escalatedClass : FailureKind → ExcClass
  | FailureKind.validationFailure => ExcClass.imageValidationError
  | FailureKind.processingFailure => ExcClass.imageProcessingError
  | FailureKind.unexpectedError => ExcClass.exceptionBase
  | FailureKind.upstreamHTTPFailure => ExcClass.imageDownloadError
  | FailureKind.upstreamNetworkFailure => ExcClass.imageDownloadError
  | FailureKind.upstreamTimeout => ExcClass.imageDownloadError

/-- Response of the serving boundary to an escalated failure of the given
kind with the given message. -/
def serveFailure (k : FailureKind) (msg : String) : Option (JsonErrorBody × Nat) :=
  flaskDispatch { cls := escalatedClass k, msg := msg }

/- ## Helper lemmas -/

theorem takeWhileZero_nil (l : List Nat) (h : l.head? ≠ some 0) :
    l.takeWhile (fun b => b == 0) = [] := by
  cases l with
  | nil => rfl
  | cons a t =>
    have ha : (a == 0) = false := by
      simp only [List.head?] at h
      simp only [beq_eq_false_iff_ne, ne_eq]
      intro hz
      exact h (by rw [hz])
    simp [List.takeWhile, ha]

theorem takeWhile_replicate_zero_append (K : Nat) (l : List Nat) :
    (List.replicate K 0 ++ l).takeWhile (fun b => b == 0)
      = List.replicate K 0 ++ l.takeWhile (fun b => b == 0) := by
  induction K with
  | zero => simp
  | succ n ih => simp [List.replicate, List.takeWhile, ih]

theorem trailingZeros_append_replicate (c : List Nat) (K : Nat)
    (h : c.getLast? ≠ some 0) :
    trailingZeros (c ++ List.replicate K 0) = K := by
  unfold trailingZeros
  rw [List.reverse_append, List.reverse_replicate, takeWhile_replicate_zero_append,
    takeWhileZero_nil]
  · simp
  · rw [List.head?_reverse]
    exact h

theorem trailingZeros_eq_zero (c : List Nat) (h : c.getLast? ≠ some 0) :
    trailingZeros c = 0 := by
  have := trailingZeros_append_replicate c 0 h
  simpa using this

theorem png_not_prefix_of_jpeg (x : List Nat) : ¬ pngSig <+: jpegSig ++ x := by
  intro h
  rcases h with ⟨s, hs⟩
  simp [pngSig, jpegSig] at hs

theorem jpeg_isPrefixOf_append (t r : List Nat) :
    jpegSig.isPrefixOf ((jpegSig ++ t) ++ r) = true := by
  rw [List.isPrefixOf_iff_prefix, List.append_assoc]
  exact List.prefix_append _ _

/- ## Claim theorems: byte sanitizer -/

/-- Claim C6 (confirmed): every byte sequence that begins with the 8-byte PNG
signature is returned by the sanitizer byte-for-byte unchanged, regardless of
how many null bytes it contains or where they occur. -/
theorem sanitize_png_unchanged (d : List Nat)
    (h : pngSig.isPrefixOf d = true) :
    sanitize_image_data d = some d := by
  unfold sanitize_image_data
  split_ifs with h1 h2 <;> rfl

/-- Witness for C6: a concrete PNG-signed byte string containing null bytes is
returned unchanged. -/
theorem sanitize_png_unchanged_witness :
    sanitize_image_data
      [0x89, 0x50, 0x4E, 0x47, 0x0D, 0x0A, 0x1A, 0x0A, 0x00, 0x00, 0x00, 0x0D] =
    some [0x89, 0x50, 0x4E, 0x47, 0x0D, 0x0A, 0x1A, 0x0A, 0x00, 0x00, 0x00, 0x0D] :=
  sanitize_png_unchanged _ (by decide)

/-- Claim C7 (confirmed): a byte sequence that begins with the JPEG
start-of-image marker and ends with exactly `K ≥ 0` null bytes (its non-null
core `c` does not end in a null byte) is returned with exactly those `K`
trailing null bytes removed and no interior byte altered. -/
theorem sanitize_jpeg_strips_trailing (c : List Nat) (K : Nat)
    (hj : jpegSig.isPrefixOf c = true) (hlast : c.getLast? ≠ some 0) :
    sanitize_image_data (c ++ List.replicate K 0) = some c := by
  obtain ⟨t, rfl⟩ : ∃ t, jpegSig ++ t = c := List.isPrefixOf_iff_prefix.mp hj
  have hne : (jpegSig ++ t) ++ List.replicate K 0 ≠ [] := by
    simp [jpegSig]
  have htz : trailingZeros ((jpegSig ++ t) ++ List.replicate K 0) = K :=
    trailingZeros_append_replicate _ K hlast
  by_cases hc : ((jpegSig ++ t) ++ List.replicate K 0).contains 0 = true
  · unfold sanitize_image_data
    rw [if_neg hne, if_neg (by rw [hc]; simp),
      if_neg (by simpa [List.isPrefixOf_iff_prefix, List.append_assoc] using
        png_not_prefix_of_jpeg (t ++ List.replicate K 0)),
      if_pos (jpeg_isPrefixOf_append t (List.replicate K 0))]
    have hdl : ((jpegSig ++ t) ++ List.replicate K 0).length - K = (jpegSig ++ t).length := by
      simp
      omega
    rw [htz, hdl, List.take_left]
    dsimp only
    rcases Nat.eq_zero_or_pos K with hK | hK
    · subst hK
      simp
    · rw [if_pos (by simp [List.length_append]; omega)]
  · have hK0 : K = 0 := by
      by_contra hK
      refine hc ?_
      simp
      exact Or.inr (Or.inr hK)
    subst hK0
    unfold sanitize_image_data
    rw [if_neg hne, if_pos (by simpa using hc)]
    simp

/-- Witness for C7: a concrete JPEG-signed byte string with two trailing null
bytes has exactly those two bytes removed. -/
theorem sanitize_jpeg_strips_trailing_witness :
    sanitize_image_data ([0xFF, 0xD8, 0xFF, 0xE0, 0x00, 0x10] ++ List.replicate 2 0) =
    some [0xFF, 0xD8, 0xFF, 0xE0, 0x00, 0x10] :=
  sanitize_jpeg_strips_trailing [0xFF, 0xD8, 0xFF, 0xE0, 0x00, 0x10] 2 (by decide) (by decide)

/-- Claim C10 (confirmed): for every input the sanitizer returns a value
(never Python `None`), and the returned bytes are a prefix of the input — the
sanitizer only ever removes a suffix, never reorders, alters, or adds bytes.
Consequently the `sanitized_data is None` branch of `process_image_response`
(team_logo_combiner.py lines 259-261) is unreachable. -/
theorem sanitize_never_none_and_prefix (d : List Nat) :
    ∃ r, sanitize_image_data d = some r ∧ r <+: d := by
  unfold sanitize_image_data
  split_ifs with h1 h2 h3 h4
  · exact ⟨d, rfl, List.prefix_refl d⟩
  · exact ⟨d, rfl, List.prefix_refl d⟩
  · exact ⟨d, rfl, List.prefix_refl d⟩
  · dsimp only
    split_ifs with h5
    · exact ⟨_, rfl, List.take_prefix _ _⟩
    · exact ⟨d, rfl, List.prefix_refl d⟩
  · dsimp only
    split_ifs with h6
    · exact ⟨_, rfl, List.take_prefix _ _⟩
    · exact ⟨d, rfl, List.prefix_refl d⟩

/- ## Fetcher lemmas -/

theorem downloadGo_retry_step (orc : Nat → FetchOutcome) (maxR attempt fuel : Nat)
    (h : retryableOutcome (orc attempt) = true) (hne : attempt ≠ maxR) :
    downloadGo orc maxR attempt (fuel + 1) =
      ((downloadGo orc maxR (attempt + 1) fuel).1,
       (downloadGo orc maxR (attempt + 1) fuel).2.1 + 1,
       (downloadGo orc maxR (attempt + 1) fuel).2.2 + 1) := by
  cases ho : orc attempt with
  | success r =>
    rw [ho] at h
    simp [retryableOutcome] at h
  | httpError s =>
    simp only [downloadGo, ho]
    rw [if_neg (by omega), if_neg hne]
  | timeout =>
    simp only [downloadGo, ho]
    rw [if_neg hne]
  | connError =>
    simp only [downloadGo, ho]
    rw [if_neg hne]

theorem downloadGo_last (orc : Nat → FetchOutcome) (maxR fuel : Nat)
    (hns : ∀ r, orc maxR ≠ FetchOutcome.success r) :
    downloadGo orc maxR maxR (fuel + 1) = (FetchResult.raisedImageDownloadError, 1, 0) := by
  cases ho : orc maxR with
  | success r => exact absurd ho (hns r)
  | httpError s =>
    simp only [downloadGo, ho]
    simp
  | timeout =>
    simp only [downloadGo, ho]
    simp
  | connError =>
    simp only [downloadGo, ho]
    simp

theorem downloadGo_success_step (orc : Nat → FetchOutcome) (maxR attempt fuel r : Nat)
    (h : orc attempt = FetchOutcome.success r) :
    downloadGo orc maxR attempt (fuel + 1) = (FetchResult.ok r, 1, 0) := by
  simp only [downloadGo, h]

theorem download_skip (orc : Nat → FetchOutcome) (maxR : Nat) :
    ∀ j, j ≤ maxR → (∀ i, i < j → retryableOutcome (orc i) = true) →
    download_with_retry orc maxR =
      ((downloadGo orc maxR j (maxR + 1 - j)).1,
       (downloadGo orc maxR j (maxR + 1 - j)).2.1 + j,
       (downloadGo orc maxR j (maxR + 1 - j)).2.2 + j) := by
  intro j
  induction j with
  | zero =>
    intro _ _
    simp [download_with_retry]
  | succ n ih =>
    intro hj hr
    have hn : n ≤ maxR := by omega
    have hne : n ≠ maxR := by omega
    rw [ih hn (fun i hi => hr i (by omega))]
    have hfuel : maxR + 1 - n = (maxR - n) + 1 := by omega
    rw [hfuel, downloadGo_retry_step orc maxR n (maxR - n) (hr n (by omega)) hne]
    have h2 : maxR - n = maxR + 1 - (n + 1) := by omega
    rw [h2]
    simp only [Prod.mk.injEq, true_and, and_true]
    exact ⟨by omega, by omega⟩

/- ## Claim theorems: resilient fetcher -/

/-- Claim C4 (code bug): against a URL whose every attempt yields HTTP 404,
`download_with_retry` with `max_retries = 3` makes 4 attempts and sleeps 3
times before raising, instead of failing after exactly one attempt with no
sleep.  The non-retry branch on source line 152 is guarded by
`if e.response and 400 <= e.response.status_code < 500`, and a
`requests.Response` with status ≥ 400 is falsy (`Response.__bool__` is
`Response.ok`), so the branch is unreachable; the comment "Don't retry 4xx
errors" and the log text "not retrying" state the opposite intent, and the
unit test passes only because it substitutes a truthy `MagicMock` for the
response. -/
theorem download_clientError_retried :
    download_with_retry (fun _ => FetchOutcome.httpError 404) 3 =
      (FetchResult.raisedImageDownloadError, 4, 3) := by decide

/-- Claim C5 (confirmed): with retryable failures on every attempt the
fetcher makes `max_retries + 1` attempts, sleeps exactly `max_retries` times
(never after the final attempt), and raises a download failure; a success on
attempt `k` after `k` retryable failures returns the response after exactly
`k` sleeps. -/
theorem download_retry_backoff_schedule (maxR : Nat) (orc : Nat → FetchOutcome) :
    ((∀ i, i ≤ maxR → orc i = FetchOutcome.timeout ∨ orc i = FetchOutcome.connError) →
      download_with_retry orc maxR = (FetchResult.raisedImageDownloadError, maxR + 1, maxR))
    ∧ ∀ k r, k ≤ maxR → (∀ i, i < k → retryableOutcome (orc i) = true) →
        orc k = FetchOutcome.success r →
        download_with_retry orc maxR = (FetchResult.ok r, k + 1, k) := by
  constructor
  · intro hall
    have hr : ∀ i, i < maxR → retryableOutcome (orc i) = true := by
      intro i hi
      rcases hall i (by omega) with h | h <;> rw [h] <;> rfl
    rw [download_skip orc maxR maxR le_rfl hr]
    have h1 : maxR + 1 - maxR = 0 + 1 := by omega
    have hns : ∀ r, orc maxR ≠ FetchOutcome.success r := by
      intro r h
      rcases hall maxR le_rfl with h' | h' <;> rw [h'] at h <;> cases h
    rw [h1, downloadGo_last orc maxR 0 hns]
    simp only [Prod.mk.injEq, true_and, and_true]
    exact ⟨by omega, by omega⟩
  · intro k r hk hr hsucc
    rw [download_skip orc maxR k hk hr]
    have h1 : maxR + 1 - k = (maxR - k) + 1 := by omega
    rw [h1, downloadGo_success_step orc maxR k (maxR - k) r hsucc]
    simp only [Prod.mk.injEq, true_and, and_true]
    exact ⟨by omega, by omega⟩

/-- Witness for C5: four straight timeouts give 4 attempts and 3 sleeps;
two timeouts followed by a success return the response after exactly 2
sleeps. -/
theorem download_retry_backoff_schedule_witness :
    download_with_retry (fun _ => FetchOutcome.timeout) 3 =
      (FetchResult.raisedImageDownloadError, 4, 3)
    ∧ download_with_retry
        (fun i => if i < 2 then FetchOutcome.timeout else FetchOutcome.success 7) 3 =
      (FetchResult.ok 7, 3, 2) := by
  constructor
  · exact (download_retry_backoff_schedule 3 (fun _ => FetchOutcome.timeout)).1
      (fun i _ => Or.inl rfl)
  · refine (download_retry_backoff_schedule 3
      (fun i => if i < 2 then FetchOutcome.timeout else FetchOutcome.success 7)).2
      2 7 (by omega) ?_ (by rfl)
    intro i hi
    have : i = 0 ∨ i = 1 := by omega
    rcases this with rfl | rfl <;> rfl

/- ## Compositor lemmas -/

theorem resizeLogos_pos (d1 d2 : Dims) (h1w : 0 < d1.w) (h1h : 0 < d1.h)
    (h2w : 0 < d2.w) (h2h : 0 < d2.h) :
    0 < (resizeLogos d1 d2).1.w ∧ 0 < (resizeLogos d1 d2).2.w := by
  unfold resizeLogos resizeLogosWith
  dsimp only
  split_ifs with h1 h2 h3 h4 <;> simp_all

/- ## Claim theorems: compositor resize and canvas -/

/-- Claim C1 counterexample: for cropped logos of sizes 5×4 and 6×3 the
taller slot is resized to width `int(5 * (3/4)) = 3`, not the claimed
`round(5 * 3/4) = 4` (the float product `3.75` is exact here, and Python's
`round` gives 4 under both half-even and half-up conventions). -/
theorem resizeLogos_round_counterexample :
    (resizeLogos ⟨5, 4⟩ ⟨6, 3⟩).1 = ⟨3, 3⟩
    ∧ (resizeLogos ⟨5, 4⟩ ⟨6, 3⟩).1 ≠ ⟨roundNearest (5 * min 4 3) 4, min 4 3⟩ := by
  decide

/-- Claim C1 (amended): with `target_height` the minimum of the two cropped
heights, the slot whose height exceeds it is resized to
`(new_width, target_height)`, where `new_width` is the source's
`int(width × (target_height/float(height)))` — a truncated double product,
which is not round-to-nearest — and the resize happens only when that
computed width is positive (otherwise the slot keeps its original size); the
other slot is left unchanged; equal heights trigger no resize; and at most
one slot is ever resized.  Because the double product's value depends on
binary64 rounding, the theorem quantifies over the width computation
`nwidth`: it holds for every such function, in particular the source's. -/
theorem resizeLogos_amended (nwidth : Nat → Nat → Nat → Nat) (d1 d2 : Dims)
    (h1h : 0 < d1.h) (h2h : 0 < d2.h) :
    (d1.h = d2.h → resizeLogosWith nwidth d1 d2 = (d1, d2))
    ∧ (d2.h < d1.h → (resizeLogosWith nwidth d1 d2).2 = d2 ∧
        (resizeLogosWith nwidth d1 d2).1 =
          (if 0 < nwidth d1.w d2.h d1.h then ⟨nwidth d1.w d2.h d1.h, d2.h⟩ else d1))
    ∧ (d1.h < d2.h → (resizeLogosWith nwidth d1 d2).1 = d1 ∧
        (resizeLogosWith nwidth d1 d2).2 =
          (if 0 < nwidth d2.w d1.h d2.h then ⟨nwidth d2.w d1.h d2.h, d1.h⟩ else d2))
    ∧ ((resizeLogosWith nwidth d1 d2).1 = d1 ∨ (resizeLogosWith nwidth d1 d2).2 = d2) := by
  refine ⟨?_, ?_, ?_, ?_⟩
  · intro heq
    unfold resizeLogosWith
    dsimp only
    rw [if_neg (by omega), if_neg (by omega)]
  · intro hlt
    have hm : min d1.h d2.h = d2.h := by omega
    unfold resizeLogosWith
    dsimp only
    rw [hm, if_pos hlt]
    constructor
    · split_ifs <;> rfl
    · split_ifs with ha hb hb
      · rfl
      · exact absurd ha.1 hb
      · exact absurd ⟨hb, h2h⟩ ha
      · rfl
  · intro hlt
    have hm : min d1.h d2.h = d1.h := by omega
    unfold resizeLogosWith
    dsimp only
    rw [hm, if_neg (by omega), if_pos hlt]
    constructor
    · split_ifs <;> rfl
    · split_ifs with ha hb hb
      · rfl
      · exact absurd ha.1 hb
      · exact absurd ⟨hb, h1h⟩ ha
      · rfl
  · unfold resizeLogosWith
    dsimp only
    split_ifs <;> simp

/-- Witness for the amended C1, instantiated with the floor width computation
at 5×4 and 6×3, where the double product `3.75` is exact so floor and the
source's truncation coincide: the second slot is unchanged. -/
theorem resizeLogos_amended_witness :
    (resizeLogosWith (fun w t h => w * t / h) ⟨5, 4⟩ ⟨6, 3⟩).2 = ⟨6, 3⟩ :=
  ((resizeLogos_amended (fun w t h => w * t / h) ⟨5, 4⟩ ⟨6, 3⟩ (by decide)
    (by decide)).2.1 (by decide)).1

/-- Claim C3 (confirmed): for positive cropped dimensions the compositor's
canvas is square, with side
`max(1, combined_width + 2·⌊combined_width/10⌋, combined_height + 2·⌊combined_height/10⌋)`
where `combined_width` is the sum of the post-resize widths and
`combined_height` is `target_height = min(height1, height2)`. -/
theorem merge_canvas_square (d1 d2 : Dims) (h1w : 0 < d1.w) (h1h : 0 < d1.h)
    (h2w : 0 < d2.w) (h2h : 0 < d2.h) :
    ∃ s, merge_images_geometry d1 d2 = some (s, s) ∧
      s = max 1 (max
        ((resizeLogos d1 d2).1.w + (resizeLogos d1 d2).2.w
          + 2 * (((resizeLogos d1 d2).1.w + (resizeLogos d1 d2).2.w) / 10))
        (min d1.h d2.h + 2 * (min d1.h d2.h / 10))) := by
  have hp := resizeLogos_pos d1 d2 h1w h1h h2w h2h
  unfold merge_images_geometry
  rw [if_neg (by omega)]
  dsimp only
  rw [if_neg (by omega)]
  exact ⟨_, rfl, rfl⟩

/-- Witness for C3: two 100×100 logos give a square 240×240 canvas
(combined width 200, padding 20 on each side). -/
theorem merge_canvas_square_witness :
    ∃ s, merge_images_geometry ⟨100, 100⟩ ⟨100, 100⟩ = some (s, s) ∧
      s = max 1 (max
        ((resizeLogos ⟨100, 100⟩ ⟨100, 100⟩).1.w + (resizeLogos ⟨100, 100⟩ ⟨100, 100⟩).2.w
          + 2 * (((resizeLogos ⟨100, 100⟩ ⟨100, 100⟩).1.w
            + (resizeLogos ⟨100, 100⟩ ⟨100, 100⟩).2.w) / 10))
        (min 100 100 + 2 * (min 100 100 / 10))) :=
  merge_canvas_square ⟨100, 100⟩ ⟨100, 100⟩ (by decide) (by decide) (by decide) (by decide)

/- ## Claim theorems: fallback logo color -/

/-- Claim C9 (confirmed): the fallback-logo color is derived from the first
three digest bytes of the identifier's hash with every channel clamped into
`[80, 200]`, and equal identifiers always produce equal `(R, G, B)` colors. -/
theorem fallback_color_deterministic_in_range (md5digest : String → List Nat)
    (id1 id2 : String) :
    (80 ≤ (create_fallback_logo_color md5digest id1).1 ∧
      (create_fallback_logo_color md5digest id1).1 ≤ 200 ∧
      80 ≤ (create_fallback_logo_color md5digest id1).2.1 ∧
      (create_fallback_logo_color md5digest id1).2.1 ≤ 200 ∧
      80 ≤ (create_fallback_logo_color md5digest id1).2.2 ∧
      (create_fallback_logo_color md5digest id1).2.2 ≤ 200)
    ∧ (id1 = id2 →
        create_fallback_logo_color md5digest id1 = create_fallback_logo_color md5digest id2) := by
  constructor
  · unfold create_fallback_logo_color clampChannel
    dsimp only
    refine ⟨?_, ?_, ?_, ?_, ?_, ?_⟩ <;> omega
  · intro h
    rw [h]

/-- Witness for C9: a concrete digest function and identifier, evaluated
twice, give the same in-range color. -/
theorem fallback_color_deterministic_in_range_witness :
    create_fallback_logo_color (fun _ => [171, 205, 239]) "12910"
      = create_fallback_logo_color (fun _ => [171, 205, 239]) "12910"
    ∧ 80 ≤ (create_fallback_logo_color (fun _ => [171, 205, 239]) "12910").1 :=
  ⟨(fallback_color_deterministic_in_range (fun _ => [171, 205, 239]) "12910" "12910").2 rfl,
   (fallback_color_deterministic_in_range (fun _ => [171, 205, 239]) "12910" "12910").1.1⟩

/- ## Claim theorems: border cropping -/

/-- A 2×1 `LA`-mode image whose left pixel is fully transparent and whose
right pixel is opaque: it carries an alpha channel and has a proper alpha
bounding box, yet `crop_transparent_border` returns it unchanged because the
source tests `image.mode != 'RGBA'`, not "lacks an alpha channel". -/
def exLA : PILImage :=
  { width := 2, height := 1, mode := ImageMode.LA
    px := fun x _ => if x = 0 then [7, 0] else [9, 255] }

/-- A 2×1 `RGBA` image with a transparent left pixel and an opaque right
pixel, used to exercise the real cropping branch. -/
def exRGBA : PILImage :=
  { width := 2, height := 1, mode := ImageMode.RGBA
    px := fun x _ => if x = 0 then [0, 0, 0, 0] else [10, 20, 30, 255] }

/-- Claim C8 counterexample: `exLA` has an alpha channel and the bounding box
of its non-fully-transparent pixels is the right half, but the cropper does
not crop to that box — it returns the 2-pixel-wide image unchanged. -/
theorem crop_transparent_border_counterexample :
    ImageMode.hasAlpha exLA.mode = true
    ∧ alphaBBox exLA = some (1, 0, 2, 1)
    ∧ crop_transparent_border exLA ≠ cropBox exLA (1, 0, 2, 1) := by
  refine ⟨rfl, by decide, ?_⟩
  intro h
  exact (by decide :
      ¬ (crop_transparent_border exLA).width = (cropBox exLA (1, 0, 2, 1)).width)
    (congrArg PILImage.width h)

/-- Claim C8 (amended): the cropper returns any non-`RGBA` image unchanged —
including alpha-bearing modes such as `LA`, which the claim's "otherwise"
branch mis-describes — and for `RGBA` images it crops to the alpha bounding
box when one exists and returns the fully transparent image unchanged without
error. -/
theorem crop_transparent_border_amended (img : PILImage) :
    (img.mode ≠ ImageMode.RGBA → crop_transparent_border img = img)
    ∧ (img.mode = ImageMode.RGBA →
        (∀ box, alphaBBox img = some box → crop_transparent_border img = cropBox img box)
        ∧ (alphaBBox img = none → crop_transparent_border img = img)) := by
  constructor
  · intro h
    unfold crop_transparent_border
    rw [if_pos h]
  · intro h
    constructor
    · intro box hb
      unfold crop_transparent_border
      rw [if_neg (by simp [h]), hb]
    · intro hb
      unfold crop_transparent_border
      rw [if_neg (by simp [h]), hb]

/-- Witness for the amended C8: the `RGBA` example is cropped to its alpha
bounding box, and a mode-`L` variant is returned unchanged. -/
theorem crop_transparent_border_amended_witness :
    crop_transparent_border exRGBA = cropBox exRGBA (1, 0, 2, 1)
    ∧ crop_transparent_border { exRGBA with mode := ImageMode.L }
      = { exRGBA with mode := ImageMode.L } :=
  ⟨((crop_transparent_border_amended exRGBA).2 rfl).1 (1, 0, 2, 1) (by decide),
   (crop_transparent_border_amended { exRGBA with mode := ImageMode.L }).1 (by decide)⟩

/- ## Claim theorems: serving boundary -/

/-- Claim C2 counterexample: an escalated upstream HTTP failure is answered
with status 500, not the claimed 502, and an escalated upstream timeout with
500, not the claimed 504 — both surface as `ImageDownloadError`, a subclass of
`ImageProcessingError`, and `app.py` registers no 502/504 handler (the legacy
`error_handler.py` handlers that return 502/504 are never registered). -/
theorem serveFailure_counterexample :
    (serveFailure FailureKind.upstreamHTTPFailure "boom").map Prod.snd ≠ some 502
    ∧ (serveFailure FailureKind.upstreamTimeout "slow").map Prod.snd ≠ some 504
    ∧ (serveFailure FailureKind.upstreamHTTPFailure "boom").map Prod.snd = some 500
    ∧ (serveFailure FailureKind.upstreamTimeout "slow").map Prod.snd = some 500 := by
  refine ⟨?_, ?_, rfl, rfl⟩ <;> decide

/-- Claim C2 (amended): the serving boundary answers every escalated failure
with a JSON error body; validation failures get status 400, and every other
kind — processing failures, unexpected errors, upstream HTTP/network
failures, and upstream timeouts — gets status 500. -/
theorem serveFailure_status (k : FailureKind) (msg : String) :
    ∃ body, serveFailure k msg =
      some (body, if k = FailureKind.validationFailure then 400 else 500) := by
  cases k <;> exact ⟨_, rfl⟩
